import Mathlib

/-!
Shallow embedding of the flag-submission engine of `src/main.rs` and
`src/database.rs` (a CTF flag submitter: fetch unsent flags from a store,
POST each to a scoring endpoint under a per-second quota, classify the
response, and persist the per-cycle outcome sets).

Modelling conventions:
* machine integers (`i64` ids, `i32` groups, `u8` quota) are modelled as
  `Int`/`Nat`; none of the verified properties involve overflow;
* a Rust panic is modelled as `Option.none` (out-of-bounds `FLAG_STATUS`
  index, `slice::chunks` with chunk size `0`);
* the concurrent tasks of one cycle only ever insert into the two
  mutex-guarded hash sets, one insertion per task, so their aggregate
  effect is modelled as the pair of id lists collected over the spawned
  tasks in spawn order (set observables are memberships);
* the store is modelled as the list of rows of the `flags` table that the
  engine reads and writes: `id, flag, group_id, status`.  The
  `received_time`/`sent_time` columns are omitted: the source comment in
  `src/database.rs` states they are "not used by the application but only
  for debug", and the spec's observable flag state is id/value/group/status.
-/

namespace Submitter

/-- Status of a flag, mirroring `enum FlagStatus` in `src/main.rs`
(`Unsent = 0`, `Sent = 1`, `Invalid = 2`). -/
inductive FlagStatus
  | Unsent
  | Sent
  | Invalid
  deriving DecidableEq

/-- Mirrors `pub const FLAG_STATUS: [FlagStatus; 3]` of `src/main.rs`. -/
def FLAG_STATUS : List FlagStatus :=
  [FlagStatus.Unsent, FlagStatus.Sent, FlagStatus.Invalid]

/-- Mirrors `struct Flag` of `src/main.rs` (`id: i64`, `flag: String`,
`group: i32`, `status: FlagStatus`). -/
structure Flag where
  id : Int
  flag : String
  group : Int
  status : FlagStatus
  deriving DecidableEq

/-- One row of the `flags` table as read and written by the queries in
`src/database.rs`: `id`, `flag`, `group_id`, `status`.  The schema's
CHECK constraint admits `status < 4`. -/
structure StoreRow where
  id : Int
  flag : String
  group_id : Int
  status : Nat
  deriving DecidableEq

/-- Result of `res.text().await` in `check_response`: either the body text
or a read error. -/
inductive BodyResult
  | ok (text : String)
  | err
  deriving DecidableEq

/-- The fields of a `reqwest::Response` that `check_response` inspects:
`res.status().is_success()` and the body read attempt. -/
structure HttpResponse where
  success : Bool
  body : BodyResult
  deriving DecidableEq

/-- Result of `send_single_flag` (`Result<Response, reqwest::Error>`):
either a response arrived or the transport call failed outright. -/
inductive TransportResult
  | ok (res : HttpResponse)
  | err
  deriving DecidableEq

/-- Boolean substring test embedding Rust `str::contains(pat)`. -/
def textContains (pat text : String) : Bool :=
  decide (pat.toList <:+: text.toList)

/-- Embeds `check_response` of `src/main.rs` (lines 210-228): success
status with a readable body returns `!text.contains("invalid")`; a body
read error or a non-success status falls through to `false`. -/
def check_response (res : HttpResponse) : Bool :=
  if res.success then
    match res.body with
    | BodyResult.ok text => !(textContains "invalid" text)
    | BodyResult.err => false
  else false

/-- Effect of one spawned submission task on the two shared sets
(`src/main.rs` lines 249-269): insert into `sent_set` when
`check_response` holds, insert into `invalid_set` when it does not, and
insert into neither when `send_single_flag` returned `Err`. -/
inductive TaskEffect
  | insertSent
  | insertInvalid
  | noInsert
  deriving DecidableEq

/-- Classifies one flag's transport result into its task effect, following
the `match`/`if` of the spawned task body in `send_flags_with_throttle`. -/
def taskEffect : TransportResult → TaskEffect
  | TransportResult.ok res =>
      if check_response res then TaskEffect.insertSent else TaskEffect.insertInvalid
  | TransportResult.err => TaskEffect.noInsert

/-- Aggregate effect of the tasks spawned for `flags` on the
`(sent_set, invalid_set)` pair, given the environment `env` assigning each
flag its transport result.  Each task performs at most one insertion; the
pair collects the inserted ids (memberships are the set observables). -/
def runTasks (env : Flag → TransportResult) : List Flag → List Int × List Int
  | [] => ([], [])
  | f :: rest =>
    let acc := runTasks env rest
    match taskEffect (env f) with
    | TaskEffect.insertSent => (f.id :: acc.1, acc.2)
    | TaskEffect.insertInvalid => (acc.1, f.id :: acc.2)
    | TaskEffect.noInsert => acc

/-- Fuel-indexed computation of Rust `slice::chunks(q)` for `q ≥ 1`: the
first chunk is the first `q` elements, recursing on the rest.  The fuel
only drives termination; it is adequate whenever `l.length ≤ fuel`. -/
def chunksGo (q : Nat) : Nat → List α → List (List α)
  | _, [] => []
  | 0, _ :: _ => []
  | fuel + 1, a :: l => (a :: l.take (q - 1)) :: chunksGo q fuel (l.drop (q - 1))

/-- Rust `slice::chunks(q)` on a list, for `q ≥ 1` (see `rustChunks` for
the `q = 0` panic). -/
def chunksOf (q : Nat) (l : List α) : List (List α) :=
  chunksGo q l.length l

/-- Embeds `flags.chunks(config.flags_quota as usize)` of
`send_flags_with_throttle`: Rust `slice::chunks` asserts a non-zero chunk
size before yielding anything, so quota `0` panics (`none`) even on an
empty slice. -/
def rustChunks (l : List α) (q : Nat) : Option (List (List α)) :=
  if q = 0 then none else some (chunksOf q l)

/-- Completion instants of the first `numWindows` ticks of
`tokio::time::interval(T)` as used in `send_flags_with_throttle`: the
first tick of a tokio interval completes immediately (time `0`) and
successive ticks complete `T` apart, so window `k` (0-based) is released
at `k * T`.  The source comment confirms the burst: "Send
FLAGS_PER_SECOND before waiting the throttle time". -/
def releaseTimes (numWindows T : Nat) : List Nat :=
  (List.range numWindows).map (fun k => k * T)

/-- Embeds `send_flags_with_throttle` of `src/main.rs` (lines 230-275):
splits the fetched flags into quota-sized windows (`none` models the
`chunks(0)` panic) and spawns one task per flag in window order; the
returned pair is the aggregate effect of those tasks on
`(sent_set, invalid_set)`.  The tick schedule of the windows is
`releaseTimes`. -/
def send_flags_with_throttle (env : Flag → TransportResult)
    (flags : List Flag) (quota : Nat) :
    Option (List (List Flag) × List Int × List Int) :=
  match rustChunks flags quota with
  | none => none
  | some ws => some (ws, runTasks env ws.flatten)

/-- Applies `UPDATE flags SET status = st WHERE id = ?` once per id of
`ids` to the row list: every row whose id is in the set gets status `st`,
all other rows are untouched (the updates commute, so iteration order of
the drained hash set is irrelevant). -/
def markRows (st : Nat) (ids : List Int) : List StoreRow → List StoreRow
  | [] => []
  | r :: rest =>
    (if r.id ∈ ids then StoreRow.mk r.id r.flag r.group_id st else r) ::
      markRows st ids rest

/-- Embeds `set_sent_flags` of `src/database.rs` (both the SQLite and the
PostgreSQL impls run `UPDATE_SENT`, setting `status = 1`, per drained id
inside one transaction). -/
def set_sent_flags (rows : List StoreRow) (ids : List Int) : List StoreRow :=
  markRows 1 ids rows

/-- Embeds `set_invalid_flags` of `src/database.rs` (runs `UPDATE_INVALID`,
setting `status = 2`, per drained id inside one transaction). -/
def set_invalid_flags (rows : List StoreRow) (ids : List Int) : List StoreRow :=
  markRows 2 ids rows

/-- Embeds the row-to-`Flag` mapping of `get_unsent_flags`: the
`FLAG_STATUS[status as usize]` array access, `none` when the index is out
of bounds (a Rust panic). -/
def flagFromRow (r : StoreRow) : Option Flag :=
  (FLAG_STATUS.get? r.status).map
    (fun st => Flag.mk r.id r.flag r.group_id st)

/-- Maps `flagFromRow` over the queried rows, propagating a panic of any
single row conversion to the whole call. -/
def collectFlags : List StoreRow → Option (List Flag)
  | [] => some []
  | r :: rest =>
    match flagFromRow r, collectFlags rest with
    | some f, some fs => some (f :: fs)
    | _, _ => none

/-- Embeds `get_unsent_flags` of `src/database.rs`: the `SELECT_UNSENT`
query returns exactly the rows with `status = 0` (SQL `WHERE status = 0`),
each mapped to a `Flag` through `FLAG_STATUS[status]`. -/
def get_unsent_flags (rows : List StoreRow) : Option (List Flag) :=
  collectFlags (rows.filter (fun r => r.status == 0))

/-- The `Flag` built from an unsent row (`status = 0`, so
`FLAG_STATUS[0] = Unsent`). -/
def mkFlag (r : StoreRow) : Flag :=
  Flag.mk r.id r.flag r.group_id FlagStatus.Unsent

/-- The snapshot of flags a cycle fetches from the given rows. -/
def fetchedFlags (rows : List StoreRow) : List Flag :=
  (rows.filter (fun r => r.status == 0)).map mkFlag

/-- Observables of one cycle of `run`: the released windows, the two
outcome id sets at persistence time, the number of persistence-function
invocations made by the cycle, and the store rows after the cycle. -/
structure CycleResult where
  windows : List (List Flag)
  sent : List Int
  invalid : List Int
  persistCalls : Nat
  finalRows : List StoreRow
  deriving DecidableEq

/-- Embeds `run` of `src/main.rs` (lines 277-305): fetch the unsent flags,
dispatch them through `send_flags_with_throttle`, join every spawned task,
then unconditionally invoke `set_sent_flags` followed by
`set_invalid_flags` on the drained outcome sets (`run` calls both
persistence functions on every cycle, lines 296-303, outside the fetch
match).  `none` models a panic inside the cycle. -/
def run (env : Flag → TransportResult) (rows : List StoreRow) (quota : Nat) :
    Option CycleResult :=
  match get_unsent_flags rows with
  | none => none
  | some flags =>
    match send_flags_with_throttle env flags quota with
    | none => none
    | some p =>
      some (CycleResult.mk p.1 p.2.1 p.2.2 2
        (set_invalid_flags (set_sent_flags rows p.2.1) p.2.2))

/-- Recognizes the task effect that inserts into the sent set. -/
def isSentEffect : TaskEffect → Bool
  | TaskEffect.insertSent => true
  | _ => false

/-- Recognizes the task effect that inserts into the invalid set. -/
def isInvalidEffect : TaskEffect → Bool
  | TaskEffect.insertInvalid => true
  | _ => false

/-- Concrete unsent store row used to instantiate the theorems. -/
def rowA : StoreRow := StoreRow.mk 1 "FLAG_A" 10 0

/-- Second concrete unsent store row. -/
def rowB : StoreRow := StoreRow.mk 2 "FLAG_B" 20 0

/-- Concrete row with status `3`: admitted by the schema's
`CHECK (status < 4)` but outside `FLAG_STATUS`. -/
def rowChecked : StoreRow := StoreRow.mk 3 "FLAG_C" 30 3

/-- Concrete row already marked sent. -/
def rowSent : StoreRow := StoreRow.mk 5 "FLAG_E" 50 1

/-- Three concrete unsent flags. -/
def flagsThree : List Flag :=
  [mkFlag rowA, mkFlag rowB, Flag.mk 3 "FLAG_C" 30 FlagStatus.Unsent]

/-- Environment where every submission gets a response whose HTTP status
is not a success. -/
def envNonSuccess : Flag → TransportResult :=
  fun _ => TransportResult.ok (HttpResponse.mk false (BodyResult.ok ""))

/-- Environment where every submission gets a success status but the body
cannot be read. -/
def envBodyErr : Flag → TransportResult :=
  fun _ => TransportResult.ok (HttpResponse.mk true BodyResult.err)

/-- Environment where every transport call fails outright. -/
def envTimeout : Flag → TransportResult := fun _ => TransportResult.err

/-- Environment accepting the flag with id `1` and rejecting every other
flag through an "invalid" body marker. -/
def envMixed : Flag → TransportResult := fun f =>
  if f.id = 1 then TransportResult.ok (HttpResponse.mk true (BodyResult.ok "accepted"))
  else TransportResult.ok (HttpResponse.mk true (BodyResult.ok "invalid flag"))

/-- Cycle outcome of `run envNonSuccess [rowA] 1`. -/
def resC1 : CycleResult :=
  CycleResult.mk [[mkFlag rowA]] [] [1] 2 [StoreRow.mk 1 "FLAG_A" 10 2]

/-- Cycle outcome of `run envTimeout [rowB] 1`. -/
def resC4 : CycleResult :=
  CycleResult.mk [[mkFlag rowB]] [] [] 2 [rowB]

/-- Cycle outcome of `run envBodyErr [rowB] 1`. -/
def resC5 : CycleResult :=
  CycleResult.mk [[mkFlag rowB]] [] [2] 2 [StoreRow.mk 2 "FLAG_B" 20 2]

/-- Cycle outcome of `run envMixed [rowA, rowB] 1`. -/
def resC6 : CycleResult :=
  CycleResult.mk [[mkFlag rowA], [mkFlag rowB]] [1] [2] 2
    [StoreRow.mk 1 "FLAG_A" 10 1, StoreRow.mk 2 "FLAG_B" 20 2]

/-- Concatenating the chunks gives back the original list, for adequate
fuel. -/
theorem chunksGo_flatten (q : Nat) :
    ∀ (fuel : Nat) (l : List α), l.length ≤ fuel →
      (chunksGo q fuel l).flatten = l := by
  intro fuel
  induction fuel with
  | zero =>
    intro l hl
    cases l with
    | nil => rfl
    | cons a l => simp at hl
  | succ fuel ih =>
    intro l hl
    cases l with
    | nil => rfl
    | cons a l =>
      simp only [chunksGo, List.flatten_cons]
      have hlen : (l.drop (q - 1)).length ≤ fuel := by
        have := List.length_drop (q - 1) l
        simp only [List.length_cons] at hl
        omega
      rw [ih _ hlen]
      simp [List.take_append_drop]

/-- Each chunk produced for a positive chunk size `q` has at most `q`
elements. -/
theorem chunksGo_length_le (q : Nat) (hq : 0 < q) :
    ∀ (fuel : Nat) (l : List α) (c : List α), c ∈ chunksGo q fuel l →
      c.length ≤ q := by
  intro fuel
  induction fuel with
  | zero =>
    intro l c hc
    cases l <;> simp [chunksGo] at hc
  | succ fuel ih =>
    intro l c hc
    cases l with
    | nil => simp [chunksGo] at hc
    | cons a l =>
      simp only [chunksGo, List.mem_cons] at hc
      rcases hc with h | h
      · subst h
        simp only [List.length_cons, List.length_take]
        omega
      · exact ih _ _ h

/-- Number of chunks produced for a positive chunk size `q`: the ceiling
of `length / q`, written `(length + q - 1) / q`. -/
theorem chunksGo_count (q : Nat) (hq : 0 < q) :
    ∀ (fuel : Nat) (l : List α), l.length ≤ fuel →
      (chunksGo q fuel l).length = (l.length + q - 1) / q := by
  intro fuel
  induction fuel with
  | zero =>
    intro l hl
    cases l with
    | nil => simp [chunksGo, Nat.div_eq_of_lt (by omega : q - 1 < q)]
    | cons a l => simp at hl
  | succ fuel ih
  =>
    intro l hl
    cases l with
    | nil => simp [chunksGo, Nat.div_eq_of_lt (by omega : q - 1 < q)]
    | cons a l =>
      simp only [chunksGo, List.length_cons]
      have hlen : (l.drop (q - 1)).length ≤ fuel := by
        have := List.length_drop (q - 1) l
        simp only [List.length_cons] at hl
        omega
      rw [ih _ hlen]
      simp only [List.length_drop]
      have hq1 : (l.length + 1 + q - 1) = l.length + q := by omega
      rw [hq1, Nat.add_div_right _ hq]
      rcases le_or_lt (q - 1) l.length with h | h
      · have : l.length - (q - 1) + q - 1 = l.length := by omega
        rw [this]
      · have h0 : l.length - (q - 1) = 0 := by omega
        rw [h0]
        have : 0 + q - 1 = q - 1 := by omega
        rw [this, Nat.div_eq_of_lt (by omega : q - 1 < q),
          Nat.div_eq_of_lt (by omega : l.length < q)]

theorem chunksOf_flatten (q : Nat) (l : List α) :
    (chunksOf q l).flatten = l :=
  chunksGo_flatten q l.length l le_rfl

theorem chunksOf_length_le (q : Nat) (hq : 0 < q) (l : List α) :
    ∀ c ∈ chunksOf q l, c.length ≤ q :=
  fun c hc => chunksGo_length_le q hq l.length l c hc

theorem chunksOf_count (q : Nat) (hq : 0 < q) (l : List α) :
    (chunksOf q l).length = (l.length + q - 1) / q :=
  chunksGo_count q hq l.length l le_rfl

/-- A non-empty list yields at least one chunk. -/
theorem chunksOf_pos (q : Nat) (hq : 0 < q) (l : List α) (hl : l ≠ []) :
    0 < (chunksOf q l).length := by
  rw [chunksOf_count q hq l]
  have h1 : 1 ≤ l.length := by
    cases l with
    | nil => exact absurd rfl hl
    | cons a l => simp
  have : q ≤ l.length + q - 1 := by omega
  exact (Nat.one_le_div_iff hq).mpr this

theorem rustChunks_pos (l : List α) (q : Nat) (hq : 0 < q) :
    rustChunks l q = some (chunksOf q l) := by
  simp [rustChunks, Nat.pos_iff_ne_zero.mp hq]

/-- With at least one window, the first interval tick — hence the first
window release — happens at instant `0`. -/
theorem releaseTimes_head (n T : Nat) (hn : 0 < n) :
    (releaseTimes n T).head? = some 0 := by
  cases n with
  | zero => omega
  | succ m =>
    simp [releaseTimes, List.range_succ_eq_map]

/-- The last of `n ≥ 1` ticks completes at instant `(n - 1) * T`: the
total wall-clock time taken to release all windows, since the function
performs no extra wait after the last window. -/
theorem releaseTimes_getLast (n T : Nat) (hn : 0 < n) :
    (releaseTimes n T).getLast? = some ((n - 1) * T) := by
  cases n with
  | zero => omega
  | succ m =>
    simp [releaseTimes, List.range_succ, List.getLast?_concat]

theorem runTasks_fst (env : Flag → TransportResult) (l : List Flag) :
    (runTasks env l).1 =
      (l.filter (fun f => isSentEffect (taskEffect (env f)))).map Flag.id := by
  induction l with
  | nil => rfl
  | cons f rest ih =>
    simp only [runTasks, List.filter_cons]
    cases h : taskEffect (env f) <;> simp [h, isSentEffect, ih]

theorem runTasks_snd (env : Flag → TransportResult) (l : List Flag) :
    (runTasks env l).2 =
      (l.filter (fun f => isInvalidEffect (taskEffect (env f)))).map Flag.id := by
  induction l with
  | nil => rfl
  | cons f rest ih =>
    simp only [runTasks, List.filter_cons]
    cases h : taskEffect (env f) <;> simp [h, isInvalidEffect, ih]

theorem mem_runTasks_fst (env : Flag → TransportResult) (l : List Flag) (x : Int) :
    x ∈ (runTasks env l).1 ↔
      ∃ f, f ∈ l ∧ isSentEffect (taskEffect (env f)) = true ∧ f.id = x := by
  rw [runTasks_fst]
  simp [List.mem_map, List.mem_filter, and_assoc]

theorem mem_runTasks_snd (env : Flag → TransportResult) (l : List Flag) (x : Int) :
    x ∈ (runTasks env l).2 ↔
      ∃ f, f ∈ l ∧ isInvalidEffect (taskEffect (env f)) = true ∧ f.id = x := by
  rw [runTasks_snd]
  simp [List.mem_map, List.mem_filter, and_assoc]

/-- A row whose id is not in the update set passes through an UPDATE batch
unchanged. -/
theorem markRows_untouched (st : Nat) (ids : List Int) (rows : List StoreRow)
    (r : StoreRow) (hr : r ∈ rows) (hid : r.id ∉ ids) :
    r ∈ markRows st ids rows := by
  induction rows with
  | nil => simp at hr
  | cons a rest ih =>
    rcases List.mem_cons.mp hr with h | h
    · subst h
      simp only [markRows, if_neg hid]
      exact List.mem_cons_self _ _
    · exact List.mem_cons_of_mem _ (ih h)

/-- A row whose id is in the update set appears afterwards with the new
status and otherwise identical columns. -/
theorem markRows_marked (st : Nat) (ids : List Int) (rows : List StoreRow)
    (r : StoreRow) (hr : r ∈ rows) (hid : r.id ∈ ids) :
    StoreRow.mk r.id r.flag r.group_id st ∈ markRows st ids rows := by
  induction rows with
  | nil => simp at hr
  | cons a rest ih =>
    rcases List.mem_cons.mp hr with h | h
    · subst h
      simp only [markRows, if_pos hid]
      exact List.mem_cons_self _ _
    · exact List.mem_cons_of_mem _ (ih h)

/-- An UPDATE batch with an empty id set leaves every row unchanged. -/
theorem markRows_nil_ids (st : Nat) (rows : List StoreRow) :
    markRows st [] rows = rows := by
  induction rows with
  | nil => rfl
  | cons a rest ih => simp [markRows, ih]

/-- Running the same UPDATE batch twice leaves the rows as after the first
time. -/
theorem markRows_idem (st : Nat) (ids : List Int) (rows : List StoreRow) :
    markRows st ids (markRows st ids rows) = markRows st ids rows := by
  induction rows with
  | nil => rfl
  | cons a rest ih =>
    by_cases h : a.id ∈ ids <;> simp [markRows, h, ih]

/-- On rows that are all unsent, the row-to-flag conversion never panics
and produces exactly the `mkFlag` images. -/
theorem collectFlags_unsent (rows : List StoreRow)
    (h : ∀ r ∈ rows, r.status = 0) :
    collectFlags rows = some (rows.map mkFlag) := by
  induction rows with
  | nil => rfl
  | cons a rest ih =>
    have ha : a.status = 0 := h a (List.mem_cons_self _ _)
    have hrest : ∀ r ∈ rest, r.status = 0 := fun r hr =>
      h r (List.mem_cons_of_mem _ hr)
    simp only [collectFlags, flagFromRow, ha, List.map_cons]
    rw [ih hrest]
    rfl

/-- The fetch of a cycle never panics and returns the snapshot
`fetchedFlags rows`. -/
theorem get_unsent_eq (rows : List StoreRow) :
    get_unsent_flags rows = some (fetchedFlags rows) := by
  unfold get_unsent_flags fetchedFlags
  apply collectFlags_unsent
  intro r hr
  have := (List.mem_filter.mp hr).2
  simpa using this

theorem fetchedFlags_map_id (rows : List StoreRow) :
    (fetchedFlags rows).map Flag.id =
      (rows.filter (fun r => r.status == 0)).map StoreRow.id := by
  simp only [fetchedFlags, List.map_map]
  rfl

/-- Distinct row ids (the `id` column is the table's primary key) yield
distinct ids in the fetched snapshot. -/
theorem fetched_nodup (rows : List StoreRow)
    (h : (rows.map StoreRow.id).Nodup) :
    ((fetchedFlags rows).map Flag.id).Nodup := by
  rw [fetchedFlags_map_id]
  exact List.Nodup.sublist (List.Sublist.map _ (List.filter_sublist _)) h

theorem mkFlag_mem_fetched (rows : List StoreRow) (r : StoreRow)
    (hr : r ∈ rows) (hst : r.status = 0) :
    mkFlag r ∈ fetchedFlags rows :=
  List.mem_map_of_mem _ (List.mem_filter.mpr ⟨hr, by simp [hst]⟩)

/-- Closed form of one cycle for a positive quota: `run` never panics and
produces exactly the windows, outcome sets, two persistence calls and
updated rows determined by the fetched snapshot. -/
theorem run_eq (env : Flag → TransportResult) (rows : List StoreRow)
    (quota : Nat) (hq : 0 < quota) :
    run env rows quota = some (CycleResult.mk
      (chunksOf quota (fetchedFlags rows))
      (runTasks env (fetchedFlags rows)).1
      (runTasks env (fetchedFlags rows)).2
      2
      (set_invalid_flags
        (set_sent_flags rows (runTasks env (fetchedFlags rows)).1)
        (runTasks env (fetchedFlags rows)).2)) := by
  simp [run, send_flags_with_throttle, get_unsent_eq, rustChunks_pos _ _ hq,
    chunksOf_flatten]

/-- Within one cycle each task inserts into at most one set, so with
pairwise-distinct flag ids no id reaches both sets. -/
theorem runTasks_disjoint (env : Flag → TransportResult) (l : List Flag)
    (hnd : (l.map Flag.id).Nodup) :
    (runTasks env l).1.Disjoint (runTasks env l).2 := by
  intro x hx hx'
  obtain ⟨f, hf, hfs, hfid⟩ := (mem_runTasks_fst env l x).mp hx
  obtain ⟨g, hg, hgs, hgid⟩ := (mem_runTasks_snd env l x).mp hx'
  have hfg : f = g := List.inj_on_of_nodup_map hnd hf hg (by rw [hfid, hgid])
  subst hfg
  cases h : taskEffect (env f) <;>
    simp [h, isSentEffect, isInvalidEffect] at hfs hgs

/-- One cycle, seen from a fetched flag whose task inserts into the
invalid set: the id lands in the invalid set only, and the row is
persisted with status `2` (`Invalid`). -/
theorem run_effect_invalid (env : Flag → TransportResult)
    (rows : List StoreRow) (quota : Nat) (r : StoreRow) (res : CycleResult)
    (hq : 0 < quota) (hnd : (rows.map StoreRow.id).Nodup)
    (hr : r ∈ rows) (hst : r.status = 0)
    (heff : taskEffect (env (mkFlag r)) = TaskEffect.insertInvalid)
    (hrun : run env rows quota = some res) :
    r.id ∈ res.invalid ∧ r.id ∉ res.sent ∧
      StoreRow.mk r.id r.flag r.group_id 2 ∈ res.finalRows := by
  rw [run_eq env rows quota hq] at hrun
  have hres := (Option.some_inj.mp hrun).symm
  subst hres
  have hf : mkFlag r ∈ fetchedFlags rows := mkFlag_mem_fetched rows r hr hst
  have hinv : r.id ∈ (runTasks env (fetchedFlags rows)).2 :=
    (mem_runTasks_snd env (fetchedFlags rows) r.id).mpr
      ⟨mkFlag r, hf, by simp [heff, isInvalidEffect], rfl⟩
  have hnotsent : r.id ∉ (runTasks env (fetchedFlags rows)).1 := by
    intro hmem
    obtain ⟨g, hg, hgs, hgid⟩ := (mem_runTasks_fst env (fetchedFlags rows) r.id).mp hmem
    have hgf : g = mkFlag r :=
      List.inj_on_of_nodup_map (fetched_nodup rows hnd) hg hf (by rw [hgid]; rfl)
    subst hgf
    rw [heff] at hgs
    simp [isSentEffect] at hgs
  refine ⟨hinv, hnotsent, ?_⟩
  have hrow : r ∈ set_sent_flags rows (runTasks env (fetchedFlags rows)).1 :=
    markRows_untouched 1 _ rows r hr hnotsent
  exact markRows_marked 2 _ _ r hrow hinv

/-- One cycle, seen from a fetched flag whose task inserts into neither
set (transport error): the id lands in neither set, the row survives the
cycle unchanged (still `Unsent`), and the next fetch returns the flag
again. -/
theorem run_effect_skip (env : Flag → TransportResult)
    (rows : List StoreRow) (quota : Nat) (r : StoreRow) (res : CycleResult)
    (hq : 0 < quota) (hnd : (rows.map StoreRow.id).Nodup)
    (hr : r ∈ rows) (hst : r.status = 0)
    (heff : taskEffect (env (mkFlag r)) = TaskEffect.noInsert)
    (hrun : run env rows quota = some res) :
    r.id ∉ res.sent ∧ r.id ∉ res.invalid ∧ r ∈ res.finalRows ∧
      mkFlag r ∈ fetchedFlags res.finalRows := by
  rw [run_eq env rows quota hq] at hrun
  have hres := (Option.some_inj.mp hrun).symm
  subst hres
  have hf : mkFlag r ∈ fetchedFlags rows := mkFlag_mem_fetched rows r hr hst
  have hnotsent : r.id ∉ (runTasks env (fetchedFlags rows)).1 := by
    intro hmem
    obtain ⟨g, hg, hgs, hgid⟩ := (mem_runTasks_fst env (fetchedFlags rows) r.id).mp hmem
    have hgf : g = mkFlag r :=
      List.inj_on_of_nodup_map (fetched_nodup rows hnd) hg hf (by rw [hgid]; rfl)
    subst hgf
    rw [heff] at hgs
    simp [isSentEffect] at hgs
  have hnotinv : r.id ∉ (runTasks env (fetchedFlags rows)).2 := by
    intro hmem
    obtain ⟨g, hg, hgs, hgid⟩ := (mem_runTasks_snd env (fetchedFlags rows) r.id).mp hmem
    have hgf : g = mkFlag r :=
      List.inj_on_of_nodup_map (fetched_nodup rows hnd) hg hf (by rw [hgid]; rfl)
    subst hgf
    rw [heff] at hgs
    simp [isInvalidEffect] at hgs
  have hrow : r ∈ set_sent_flags rows (runTasks env (fetchedFlags rows)).1 :=
    markRows_untouched 1 _ rows r hr hnotsent
  have hrow2 : r ∈ set_invalid_flags
      (set_sent_flags rows (runTasks env (fetchedFlags rows)).1)
      (runTasks env (fetchedFlags rows)).2 :=
    markRows_untouched 2 _ _ r hrow hnotinv
  exact ⟨hnotsent, hnotinv, hrow2, mkFlag_mem_fetched _ r hrow2 hst⟩

/-- C1 (counterexample): on the one-flag store `[rowA]` with a response
whose HTTP status is not a success, the cycle inserts the flag's id `1`
into the invalid set and persists the row with status `2` (`Invalid`) —
it is not left in neither set with status `Unsent` as the claim states. -/
theorem nonsuccess_goes_to_invalid_set_cex :
    (run envNonSuccess [rowA] 1).map CycleResult.invalid = some [1] ∧
    (run envNonSuccess [rowA] 1).map CycleResult.finalRows =
      some [StoreRow.mk 1 "FLAG_A" 10 2] :=
  ⟨rfl, rfl⟩

/-- C1 (amended): for every submission whose HTTP response arrives but
whose status does not indicate success, `check_response` returns `false`,
so the flag's id is inserted into the invalid set (and not the sent set)
and the flag is persisted with terminal status `Invalid` — it is not
retried. -/
theorem nonsuccess_status_marks_flag_invalid (env : Flag → TransportResult)
    (rows : List StoreRow) (quota : Nat) (r : StoreRow) (res : CycleResult)
    (body : BodyResult)
    (hq : 0 < quota) (hnd : (rows.map StoreRow.id).Nodup)
    (hr : r ∈ rows) (hst : r.status = 0)
    (henv : env (mkFlag r) = TransportResult.ok (HttpResponse.mk false body))
    (hrun : run env rows quota = some res) :
    r.id ∈ res.invalid ∧ r.id ∉ res.sent ∧
      StoreRow.mk r.id r.flag r.group_id 2 ∈ res.finalRows := by
  apply run_effect_invalid env rows quota r res hq hnd hr hst _ hrun
  simp [taskEffect, henv, check_response]

/-- C1 (witness): the amended claim instantiated at `rowA` under
`envNonSuccess` with quota `1`. -/
theorem nonsuccess_status_marks_flag_invalid_witness :
    (1 : Int) ∈ resC1.invalid ∧ (1 : Int) ∉ resC1.sent ∧
      StoreRow.mk 1 "FLAG_A" 10 2 ∈ resC1.finalRows :=
  nonsuccess_status_marks_flag_invalid envNonSuccess [rowA] 1 rowA resC1
    (BodyResult.ok "") (by decide) (by decide) (by decide) (by decide) rfl rfl

/-- C2 (counterexample): on a store whose fetch returns no unsent flags,
the cycle still invokes both persistence functions (`set_sent_flags` and
`set_invalid_flags`), i.e. it makes `2` persistence calls, not `0` as the
claim states. -/
theorem empty_fetch_still_persists_cex :
    (run envTimeout [] 1).map CycleResult.persistCalls = some 2 ∧
    (2 : Nat) ≠ 0 :=
  ⟨rfl, by decide⟩

/-- C2 (amended): a cycle whose fetch returns an empty list performs zero
dispatches (no windows, no spawned task, no tick, hence zero delay) and
leaves the store unchanged; `set_sent_flags` and `set_invalid_flags` are
nevertheless each invoked once, with empty id sets, updating no row. -/
theorem empty_fetch_cycle_no_dispatch (env : Flag → TransportResult)
    (rows : List StoreRow) (quota T : Nat) (hq : 0 < quota)
    (hempty : fetchedFlags rows = []) :
    run env rows quota = some (CycleResult.mk [] [] [] 2 rows) ∧
    releaseTimes 0 T = [] := by
  constructor
  · rw [run_eq env rows quota hq, hempty]
    simp [chunksOf, chunksGo, runTasks, set_sent_flags, set_invalid_flags,
      markRows_nil_ids]
  · rfl

/-- C2 (witness): the amended claim instantiated on a store holding one
already-sent row, quota `1`. -/
theorem empty_fetch_cycle_no_dispatch_witness :
    run envTimeout [rowSent] 1 = some (CycleResult.mk [] [] [] 2 [rowSent]) :=
  (empty_fetch_cycle_no_dispatch envTimeout [rowSent] 1 1 (by decide) rfl).1

/-- C3 (counterexample): for one flag, quota `1` and interval `T = 1`, the
single window is released at instant `0` — not after one full interval as
the claim states (`¬ 1 ≤ 0`) — and the release of all windows completes
at instant `0`, not at `ceil(1/1) * 1 = 1`. -/
theorem first_window_immediate_cex :
    rustChunks [mkFlag rowA] 1 = some [[mkFlag rowA]] ∧
    releaseTimes 1 1 = [0] ∧
    (releaseTimes 1 1).getLast? = some 0 ∧
    ¬ (1 : Nat) ≤ 0 :=
  ⟨rfl, rfl, rfl, by decide⟩

/-- C3 (amended): for every non-empty fetched sequence of `N` flags and
quota `Q ≥ 1` the batcher produces `ceil(N/Q)` windows, releases the FIRST
window immediately at instant `0` (tokio's first interval tick completes
immediately; the source comments "Send FLAGS_PER_SECOND before waiting the
throttle time"), and the last window is released at
`(ceil(N/Q) - 1) * T`, which is the total wall-clock time of the batch. -/
theorem throttle_schedule_burst_on_start (flags : List Flag) (quota T : Nat)
    (hne : flags ≠ []) (hq : 0 < quota) :
    rustChunks flags quota = some (chunksOf quota flags) ∧
    (chunksOf quota flags).length = (flags.length + quota - 1) / quota ∧
    (releaseTimes (chunksOf quota flags).length T).head? = some 0 ∧
    (releaseTimes (chunksOf quota flags).length T).getLast? =
      some (((flags.length + quota - 1) / quota - 1) * T) := by
  have hpos := chunksOf_pos quota hq flags hne
  refine ⟨rustChunks_pos _ _ hq, chunksOf_count quota hq flags,
    releaseTimes_head _ _ hpos, ?_⟩
  rw [releaseTimes_getLast _ _ hpos, chunksOf_count quota hq flags]

/-- C3 (witness): three flags, quota `2`, interval `3`: two windows, the
first at instant `0`, the last at instant `3 = (ceil(3/2) - 1) * 3`. -/
theorem throttle_schedule_burst_on_start_witness :
    (releaseTimes (chunksOf 2 flagsThree).length 3).head? = some 0 ∧
    (releaseTimes (chunksOf 2 flagsThree).length 3).getLast? = some 3 := by
  have h := throttle_schedule_burst_on_start flagsThree 2 3 (by decide) (by decide)
  exact ⟨h.2.2.1, h.2.2.2⟩

/-- C4: a submission whose transport call fails outright inserts into
neither set; the flag's row survives the cycle unchanged (still `Unsent`)
and the next cycle's fetch returns the flag again. -/
theorem transport_error_leaves_flag_unsent (env : Flag → TransportResult)
    (rows : List StoreRow) (quota : Nat) (r : StoreRow) (res : CycleResult)
    (hq : 0 < quota) (hnd : (rows.map StoreRow.id).Nodup)
    (hr : r ∈ rows) (hst : r.status = 0)
    (henv : env (mkFlag r) = TransportResult.err)
    (hrun : run env rows quota = some res) :
    r.id ∉ res.sent ∧ r.id ∉ res.invalid ∧ r ∈ res.finalRows ∧
      mkFlag r ∈ fetchedFlags res.finalRows := by
  apply run_effect_skip env rows quota r res hq hnd hr hst _ hrun
  simp [taskEffect, henv]

/-- C4 (witness): the claim instantiated at `rowB` under `envTimeout` with
quota `1`. -/
theorem transport_error_leaves_flag_unsent_witness :
    (2 : Int) ∉ resC4.sent ∧ (2 : Int) ∉ resC4.invalid ∧
      rowB ∈ resC4.finalRows ∧ mkFlag rowB ∈ fetchedFlags resC4.finalRows :=
  transport_error_leaves_flag_unsent envTimeout [rowB] 1 rowB resC4
    (by decide) (by decide) (by decide) (by decide) rfl rfl

/-- C5 (counterexample): on the one-flag store `[rowB]` with a success
status but an unreadable body, the cycle inserts the flag's id `2` into
the invalid set — the outcome is not `Undetermined` (neither set) as the
claim states; the sent set is indeed empty. -/
theorem body_error_goes_to_invalid_set_cex :
    (run envBodyErr [rowB] 1).map CycleResult.invalid = some [2] ∧
    (run envBodyErr [rowB] 1).map CycleResult.sent = some [] :=
  ⟨rfl, rfl⟩

/-- C5 (amended): a submission whose response has a success status but
whose body cannot be read is never classified as confirmed — its id never
enters the sent set — but it is not treated as `Undetermined`: the id is
inserted into the invalid set and the row is persisted with status
`Invalid`. -/
theorem body_error_never_sent_marked_invalid (env : Flag → TransportResult)
    (rows : List StoreRow) (quota : Nat) (r : StoreRow) (res : CycleResult)
    (hq : 0 < quota) (hnd : (rows.map StoreRow.id).Nodup)
    (hr : r ∈ rows) (hst : r.status = 0)
    (henv : env (mkFlag r) = TransportResult.ok (HttpResponse.mk true BodyResult.err))
    (hrun : run env rows quota = some res) :
    r.id ∉ res.sent ∧ r.id ∈ res.invalid ∧
      StoreRow.mk r.id r.flag r.group_id 2 ∈ res.finalRows := by
  have h := run_effect_invalid env rows quota r res hq hnd hr hst
    (by simp [taskEffect, henv, check_response]) hrun
  exact ⟨h.2.1, h.1, h.2.2⟩

/-- C5 (witness): the amended claim instantiated at `rowB` under
`envBodyErr` with quota `1`. -/
theorem body_error_never_sent_marked_invalid_witness :
    (2 : Int) ∉ resC5.sent ∧ (2 : Int) ∈ resC5.invalid ∧
      StoreRow.mk 2 "FLAG_B" 20 2 ∈ resC5.finalRows :=
  body_error_never_sent_marked_invalid envBodyErr [rowB] 1 rowB resC5
    (by decide) (by decide) (by decide) (by decide) rfl rfl

/-- C6: in every cycle over rows with pairwise-distinct ids (the table's
primary key), the sent set and the invalid set are disjoint at persistence
time: each task inserts its flag's id into at most one of the two sets. -/
theorem cycle_sent_invalid_disjoint (env : Flag → TransportResult)
    (rows : List StoreRow) (quota : Nat) (res : CycleResult)
    (hq : 0 < quota) (hnd : (rows.map StoreRow.id).Nodup)
    (hrun : run env rows quota = some res) :
    res.sent.Disjoint res.invalid := by
  rw [run_eq env rows quota hq] at hrun
  have hres := (Option.some_inj.mp hrun).symm
  subst hres
  exact runTasks_disjoint env (fetchedFlags rows) (fetched_nodup rows hnd)

/-- C6 (witness): the claim instantiated on the two-flag store
`[rowA, rowB]` under `envMixed` (one accepted, one rejected). -/
theorem cycle_sent_invalid_disjoint_witness :
    resC6.sent.Disjoint resC6.invalid :=
  cycle_sent_invalid_disjoint envMixed [rowA, rowB] 1 resC6
    (by decide) (by decide) rfl

/-- C7: for every flag list and quota `Q ≥ 1`, the batcher never panics,
every window it releases has at most `Q` flags, and the concatenation of
all windows is exactly the fetched snapshot (so the combined item count
equals the number of fetched flags). -/
theorem windows_bounded_and_cover_snapshot (flags : List Flag) (quota : Nat)
    (hq : 0 < quota) :
    rustChunks flags quota = some (chunksOf quota flags) ∧
    (chunksOf quota flags).flatten = flags ∧
    ∀ w ∈ chunksOf quota flags, w.length ≤ quota :=
  ⟨rustChunks_pos _ _ hq, chunksOf_flatten _ _, chunksOf_length_le _ hq _⟩

/-- C7 (witness): the claim instantiated at three flags with quota `2`. -/
theorem windows_bounded_and_cover_snapshot_witness :
    (0 : Nat) < 2 ∧ (chunksOf 2 flagsThree).flatten = flagsThree :=
  ⟨by decide, (windows_bounded_and_cover_snapshot flagsThree 2 (by decide)).2.1⟩

/-- C8: `set_sent_flags` is idempotent on the observable store state:
running the same `UPDATE flags SET status = 1 WHERE id = ?` batch twice
with the same id set leaves the rows exactly as one call does. -/
theorem set_sent_flags_idempotent (rows : List StoreRow) (ids : List Int) :
    set_sent_flags (set_sent_flags rows ids) ids = set_sent_flags rows ids :=
  markRows_idem 1 ids rows

/-- C9: with a configured `flags_quota` of `0`, `send_flags_with_throttle`
panics (`slice::chunks` asserts a non-zero chunk size) for every flag
list, including the empty one; for every quota `≥ 1` it is total. -/
theorem quota_zero_panics_quota_pos_total :
    (∀ (env : Flag → TransportResult) (flags : List Flag),
      send_flags_with_throttle env flags 0 = none) ∧
    (∀ (env : Flag → TransportResult) (flags : List Flag) (quota : Nat),
      0 < quota → (send_flags_with_throttle env flags quota).isSome = true) := by
  constructor
  · intro env flags
    rfl
  · intro env flags quota hq
    simp [send_flags_with_throttle, rustChunks_pos _ _ hq]

/-- C9 (witness): quota `0` panics even on the empty flag list, while
quota `1` succeeds on it. -/
theorem quota_zero_panics_quota_pos_total_witness :
    send_flags_with_throttle envTimeout [] 0 = none ∧
    (send_flags_with_throttle envTimeout [] 1).isSome = true :=
  ⟨quota_zero_panics_quota_pos_total.1 envTimeout [],
   quota_zero_panics_quota_pos_total.2 envTimeout [] 1 (by decide)⟩

/-- C10: `get_unsent_flags` never panics — the `WHERE status = 0` filter
guarantees every selected row indexes `FLAG_STATUS` at `0`, in bounds even
though the schema's CHECK constraint admits statuses up to `3` — and every
returned flag has status `Unsent`. -/
theorem get_unsent_flags_no_panic_all_unsent (rows : List StoreRow) :
    get_unsent_flags rows = some (fetchedFlags rows) ∧
    ∀ f ∈ fetchedFlags rows, f.status = FlagStatus.Unsent := by
  refine ⟨get_unsent_eq rows, ?_⟩
  intro f hf
  obtain ⟨r, hr, rfl⟩ := List.mem_map.mp hf
  rfl

/-- C10 (witness): a store holding an unsent row and a row with status `3`
(admitted by the CHECK constraint): the fetch succeeds, returns only the
unsent flag, and that flag's status is `Unsent`. -/
theorem get_unsent_flags_no_panic_all_unsent_witness :
    get_unsent_flags [rowA, rowChecked] = some [mkFlag rowA] ∧
    (mkFlag rowA).status = FlagStatus.Unsent :=
  ⟨(get_unsent_flags_no_panic_all_unsent [rowA, rowChecked]).1,
   (get_unsent_flags_no_panic_all_unsent [rowA, rowChecked]).2 (mkFlag rowA)
     (by decide)⟩

end Submitter
